import Mathlib

/-!
Verification development for the AnalysisToolbox repository.

We give a shallow embedding of `latqcdtools/base/speedify.py` (the
backend-selecting parallel-evaluation dispatcher) and
`latqcdtools/math/polynomials.py` (polynomial and rational function
evaluation), and prove/refute the specification's claims about them.

Modelling conventions:
* Python exceptions are modelled with `Except PyError`.
* The external backend libraries (jax, concurrent.futures, pathos) are not
  part of the repository; each backend execution is modelled by its
  documented contract (an order-preserving elementwise map), with an
  oracle `Option String` that, when `some msg`, models the backend raising
  a runtime exception with message `msg`.
* Log output and pool construction are recorded as an event trace
  (`List Event`), so that claims about warnings and about which backend
  machinery is invoked can be stated.
* Numeric values are modelled by exact numbers (`Int`, `ℚ`); floating
  point rounding is outside the scope of the claims treated here.
-/

namespace Speedify

/-- Python exceptions that the embedded code can raise. -/
inductive PyError
  /-- `logger.TBError('Unknown parallelizer', parallelizer)`: a fatal error
  carrying the unrecognized backend identifier. -/
  | unknownParallelizer (name : String)
  /-- an exception raised inside an external backend execution. -/
  | backendError (msg : String)
  /-- Python `ZeroDivisionError`, raised by `a / 0`. -/
  | zeroDivisionError
  deriving DecidableEq, Repr

/-- Observable events of a dispatch: log lines and backend machinery use. -/
inductive Event
  /-- the `logger.warn('We recommend using fewer processes than', MAXTHREADS)`
  line emitted by `ComputationClass.__init__` when `nproc > MAXTHREADS`. -/
  | warnExceedsMaxThreads
  /-- the sequential `for` loop over the input array (the `nproc == 1` branch). -/
  | sequentialLoop
  /-- a `jax.vmap` batched execution over the given number of inputs. -/
  | jaxVmapBatch (batchSize : Nat)
  /-- construction of a process pool with the given worker count:
  `ProcessPoolExecutor(max_workers=...)` or `ProcessPool(processes=...)`. -/
  | poolCreate (maxWorkers : Nat)
  /-- the `logger.warn("JAX execution failed: ...")` line emitted by the
  wrapper that `compile` returns. -/
  | warnJaxExecFailed (msg : String)
  deriving DecidableEq, Repr

/-- Oracle describing, for one dispatch, whether each external backend
execution raises an exception (`some msg`) or completes normally (`none`). -/
structure BackendOracle where
  jaxRaises : Option String
  futuresRaises : Option String
  pathosRaises : Option String
  deriving DecidableEq, Repr

/-- `handle_jax_array`: converts array-like containers to the backend's
native array type and passes every other value through.  On the abstract
mathematical values of this embedding the representation change is
value-preserving, hence the identity. -/
def handle_jax_array {σ : Type} (x : σ) : σ := x

/-- `handle_jax_args`: applies `handle_jax_array` to every positional
argument. -/
def handle_jax_args {σ : Type} (args : σ) : σ := handle_jax_array args

/-- `ComputationClass.pass_argument_wrapper`:
`self._function(single_input, *self._args)`. -/
def pass_argument_wrapper {α σ β : Type} (f : α → σ → β) (args : σ) (x : α) : β :=
  f x args

/-- Modelled from the spec: `jax.vmap(mapped_func)` applied to the input
array applies the batched transform across the first axis, elementwise and
order-preserving (the library is external to the repository).  The oracle
models a runtime exception during the batched execution. -/
def jax_vmap_exec {α β : Type} (raises : Option String) (g : α → β) (xs : List α) :
    Except PyError (List β) :=
  match raises with
  | some msg => Except.error (PyError.backendError msg)
  | none => Except.ok (xs.map g)

/-- Modelled from the spec: `concurrent.futures.ProcessPoolExecutor.map`
returns results re-ordered to match input order even though tasks complete
out of order (the library is external to the repository).  The oracle
models a runtime exception during pool execution. -/
def futures_map_exec {α β : Type} (raises : Option String) (g : α → β) (xs : List α) :
    Except PyError (List β) :=
  match raises with
  | some msg => Except.error (PyError.backendError msg)
  | none => Except.ok (xs.map g)

/-- Modelled from the spec: `pathos.pools.ProcessPool.map` returns results
in input order (the library is external to the repository).  The oracle
models a runtime exception during pool execution. -/
def pathos_map_exec {α β : Type} (raises : Option String) (g : α → β) (xs : List α) :
    Except PyError (List β) :=
  match raises with
  | some msg => Except.error (PyError.backendError msg)
  | none => Except.ok (xs.map g)

/-- `ComputationClass.__init__` followed by `parallelization_wrapper`.
`maxThreads` is the startup-detected `MAXTHREADS`; `__init__` warns (and
only warns) when `nproc > MAXTHREADS`, then computes the result:
sequential loop when `nproc == 1`; otherwise the branch selected by the
`parallelizer` string, with `logger.TBError` on an unknown identifier.
There is no exception handler in the source: a backend exception
propagates.  Returns the result together with the event trace. -/
def parallelization_wrapper {α σ β : Type} (maxThreads : Nat) (ω : BackendOracle)
    (f : α → σ → β) (input_array : List α) (args : σ)
    (nproc : Nat) (parallelizer : String) :
    Except PyError (List β) × List Event :=
  let initEvents := if maxThreads < nproc then [Event.warnExceedsMaxThreads] else []
  if nproc = 1 then
    (Except.ok (input_array.map (pass_argument_wrapper f args)),
     initEvents ++ [Event.sequentialLoop])
  else if parallelizer = "jax" then
    (jax_vmap_exec ω.jaxRaises (fun x => f x (handle_jax_args args)) input_array,
     initEvents ++ [Event.jaxVmapBatch input_array.length])
  else if parallelizer = "concurrent.futures" then
    (futures_map_exec ω.futuresRaises (pass_argument_wrapper f args) input_array,
     initEvents ++ [Event.poolCreate nproc])
  else if parallelizer = "pathos.pools" then
    (pathos_map_exec ω.pathosRaises (pass_argument_wrapper f args) input_array,
     initEvents ++ [Event.poolCreate nproc])
  else
    (Except.error (PyError.unknownParallelizer parallelizer), initEvents)

/-- `parallel_function_eval`: constructs a `ComputationClass` (which computes
its result at initialization) and returns `computer.getResult()`. -/
def parallel_function_eval {α σ β : Type} (maxThreads : Nat) (ω : BackendOracle)
    (f : α → σ → β) (input_array : List α) (args : σ)
    (nproc : Nat) (parallelizer : String) :
    Except PyError (List β) × List Event :=
  parallelization_wrapper maxThreads ω f input_array args nproc parallelizer

/-- Modelled from the spec: `np.sum(container)` on the result container is
the elementwise sum of the returned sequence (numpy is external to the
repository). -/
def np_sum {β : Type} [AddMonoid β] (xs : List β) : β := xs.sum

/-- `parallel_reduce`: calls `parallel_function_eval` once and returns
`np.sum(container)`.  An exception from the evaluation propagates. -/
def parallel_reduce {α σ β : Type} [AddMonoid β] (maxThreads : Nat) (ω : BackendOracle)
    (f : α → σ → β) (input_array : List α) (args : σ)
    (nproc : Nat) (parallelizer : String) :
    Except PyError β :=
  let container := parallel_function_eval maxThreads ω f input_array args nproc parallelizer
  Except.map np_sum container.1

/-- The module-level capability probe of `speedify.py`:
`DEFAULTPARALLELIZER = 'jax'`, then `try: import jax` with
`except: DEFAULTPARALLELIZER = 'pathos.pools'`, then unconditionally
`try: import pathos.pools` with
`except: DEFAULTPARALLELIZER = 'concurrent.futures'`.
The two booleans say whether each optional import succeeds. -/
def DEFAULTPARALLELIZER (jaxAvailable pathosAvailable : Bool) : String :=
  let d0 := "jax"
  let d1 := if jaxAvailable then d0 else "pathos.pools"
  let d2 := if pathosAvailable then d1 else "concurrent.futures"
  d2

/-- The probe as the specification words it: the first backend in priority
order {jax, pathos.pools, concurrent.futures} whose import succeeds becomes
the recorded default (stated for comparison with `DEFAULTPARALLELIZER`,
which embeds the source). -/
def firstSuccessfulBackend (jaxAvailable pathosAvailable : Bool) : String :=
  if jaxAvailable then "jax"
  else if pathosAvailable then "pathos.pools"
  else "concurrent.futures"

/-- The `jax_func` closure built inside `compile`: the jit-compiled form of
`func` called on the converted arguments.  `jax.jit` preserves the
function's semantics; argument conversion is `handle_jax_args`. -/
def jax_func {σ β : Type} (func : σ → β) (args : σ) : β :=
  func (handle_jax_args args)

/-- The `wrapped_func` closure that `compile` returns on the jax path:
tries `jax_func` on the arguments and, on any exception (modelled by the
oracle), logs a warning and calls the original `func` on the original
arguments.  Returns the value together with the log events. -/
def wrapped_func {σ β : Type} (jaxExecRaises : Option String) (func : σ → β) (args : σ) :
    β × List Event :=
  match jaxExecRaises with
  | none => (jax_func func args, [])
  | some msg => (func args, [Event.warnJaxExecFailed msg])

/-- Modelled from the spec: `numba.njit(func)` is the generic JIT-compiled
form of `func`, semantically `func` itself (numba is external to the
repository). -/
def njit {σ β : Type} (func : σ → β) : σ → β := func

/-- `compile`, applied to arguments: when the global `COMPILE` flag is set
and the default parallelizer is `'jax'`, calls the returned `wrapped_func`;
when only `COMPILE` is set, calls `njit(func)`; otherwise calls `func`
unchanged.  (Building the jit wrapper itself is lazy and does not run the
function, so the interesting failure point is the invocation, modelled by
the oracle.) -/
def compileApply {σ β : Type} (COMPILE : Bool) (defaultParallelizer : String)
    (jaxExecRaises : Option String) (func : σ → β) (args : σ) :
    β × List Event :=
  if COMPILE && defaultParallelizer = "jax" then
    wrapped_func jaxExecRaises func args
  else if COMPILE then
    (njit func args, [])
  else
    (func args, [])

end Speedify

namespace Polynomials

open Speedify (PyError)

/-- The `Polynomial` class of `polynomials.py`: a coefficient list. -/
structure Polynomial where
  coeffs : List ℚ
  deriving DecidableEq, Repr

/-- `Polynomial.__call__`: `res = 0.0`, then
`for index_num in range(len(self.coeffs)): res += coeffs[index_num] * x**index_num`. -/
def Polynomial.call (p : Polynomial) (x : ℚ) : ℚ :=
  (List.range p.coeffs.length).foldl (fun res i => res + p.coeffs.getD i 0 * x ^ i) 0

/-- The `Rational` class of `polynomials.py`: numerator and denominator
coefficient lists. -/
structure Rational where
  num_coeffs : List ℚ
  den_coeffs : List ℚ
  deriving DecidableEq, Repr

/-- `Rational.__call__`: first accumulates `res_den` as the denominator
polynomial value, then loops
`res += num_coeffs[index_num] * x**index_num / res_den`; each loop step
performs a Python division, which raises `ZeroDivisionError` when
`res_den` is zero. -/
def Rational.call (r : Rational) (x : ℚ) : Except PyError ℚ :=
  let res_den :=
    (List.range r.den_coeffs.length).foldl
      (fun rd i => rd + r.den_coeffs.getD i 0 * x ^ i) 0
  (List.range r.num_coeffs.length).foldlM
    (fun res i =>
      if res_den = 0 then Except.error PyError.zeroDivisionError
      else Except.ok (res + r.num_coeffs.getD i 0 * x ^ i / res_den)) 0

end Polynomials

namespace Speedify

/-- Helper: with `nproc = 1` the wrapper takes the sequential branch, for
every oracle and every parallelizer string. -/
theorem parallelization_wrapper_nproc_one {α σ β : Type} (mt : Nat) (ω : BackendOracle)
    (f : α → σ → β) (xs : List α) (args : σ) (p : String) :
    parallelization_wrapper mt ω f xs args 1 p =
      (Except.ok (xs.map (pass_argument_wrapper f args)),
       (if mt < 1 then [Event.warnExceedsMaxThreads] else []) ++ [Event.sequentialLoop]) := by
  rfl

/-- C1: for every function, every finite input list, every extra-argument
tuple, every positive worker count and every recognized backend selection,
`parallel_function_eval` (with normally completing backends) returns a
sequence whose length equals the input length and whose element at
position i is `f inputs[i] args`, in input order, in every tier. -/
theorem C1_evaluate_ordered_image {α σ β : Type} (mt : Nat) (f : α → σ → β)
    (xs : List α) (args : σ) (nproc : Nat) (p : String)
    (hn : 1 ≤ nproc)
    (hp : p = "jax" ∨ p = "concurrent.futures" ∨ p = "pathos.pools") :
    ∃ out : List β,
      (parallel_function_eval mt ⟨none, none, none⟩ f xs args nproc p).1 = Except.ok out ∧
      out.length = xs.length ∧
      ∀ i : Nat, out[i]? = Option.map (fun x => f x args) xs[i]? := by
  refine ⟨xs.map (fun x => f x args), ?_, by simp, by simp⟩
  by_cases h1 : nproc = 1
  · subst h1
    rw [show parallel_function_eval mt ⟨none, none, none⟩ f xs args 1 p
          = parallelization_wrapper mt ⟨none, none, none⟩ f xs args 1 p from rfl,
        parallelization_wrapper_nproc_one]
    rfl
  · rcases hp with h | h | h <;> subst h <;>
      simp [parallel_function_eval, parallelization_wrapper, h1,
        jax_vmap_exec, futures_map_exec, pathos_map_exec,
        pass_argument_wrapper, handle_jax_args, handle_jax_array]

/-- C1 witness at a concrete instance. -/
theorem C1_evaluate_ordered_image_witness :
    (1 ≤ 2 ∧ ("jax" = "jax" ∨ "jax" = "concurrent.futures" ∨ "jax" = "pathos.pools")) ∧
    ∃ out : List Int,
      (parallel_function_eval 8 ⟨none, none, none⟩
          (fun (x : Int) (_ : Unit) => x * x) [1, 2, 3] () 2 "jax").1 = Except.ok out ∧
      out.length = ([1, 2, 3] : List Int).length ∧
      ∀ i : Nat, out[i]? = Option.map (fun x : Int => x * x) ([1, 2, 3] : List Int)[i]? :=
  ⟨⟨by decide, Or.inl rfl⟩,
   C1_evaluate_ordered_image 8 (fun (x : Int) (_ : Unit) => x * x) [1, 2, 3] () 2 "jax"
     (by decide) (Or.inl rfl)⟩

/-- C2 counterexample: with a worker count above one and the vectorized
(tier-2) backend raising, `parallel_function_eval` surfaces the backend
exception to the caller instead of falling through to the next tier and
returning a complete result. -/
theorem C2_counterexample_backend_exception_surfaced :
    (parallel_function_eval 8 ⟨some "boom", none, none⟩
        (fun (x : Int) (_ : Unit) => x * x) [1, 2, 3] () 2 "jax").1
      = Except.error (PyError.backendError "boom") := by
  rfl

/-- C2 amended: if, during a dispatch with worker count above one, the
vectorized (tier-2) or a process-pool (tier-3) execution raises an
exception, the exception propagates to the caller of
`parallel_function_eval`: there is no catch, no warning and no fallback to
another tier, and no result sequence is returned for that call. -/
theorem C2_amended_backend_exception_propagates {α σ β : Type} (mt : Nat)
    (f : α → σ → β) (xs : List α) (args : σ) (nproc : Nat) (msg : String)
    (hn : nproc ≠ 1) :
    ((parallel_function_eval mt ⟨some msg, none, none⟩ f xs args nproc "jax").1
        = Except.error (PyError.backendError msg))
  ∧ ((parallel_function_eval mt ⟨none, some msg, none⟩ f xs args nproc "concurrent.futures").1
        = Except.error (PyError.backendError msg))
  ∧ ((parallel_function_eval mt ⟨none, none, some msg⟩ f xs args nproc "pathos.pools").1
        = Except.error (PyError.backendError msg)) := by
  refine ⟨?_, ?_, ?_⟩ <;>
    simp [parallel_function_eval, parallelization_wrapper, hn,
      jax_vmap_exec, futures_map_exec, pathos_map_exec]

/-- C2 amended witness at a concrete instance. -/
theorem C2_amended_backend_exception_propagates_witness :
    (2 : Nat) ≠ 1 ∧
    ((parallel_function_eval 8 ⟨some "boom", none, none⟩
        (fun (x : Int) (_ : Unit) => x * x) [1] () 2 "jax").1
      = Except.error (PyError.backendError "boom")) :=
  ⟨by decide,
   (C2_amended_backend_exception_propagates 8 (fun (x : Int) (_ : Unit) => x * x)
      [1] () 2 "boom" (by decide)).1⟩

/-- C3: with worker count one, the dispatcher runs the plain sequential
loop in input order; the result and trace are independent of the backend
oracle and of the parallelizer string, and no pool is created and no
vectorized batch is executed. -/
theorem C3_workerCount_one_sequential {α σ β : Type} (mt : Nat) (ω ω' : BackendOracle)
    (f : α → σ → β) (xs : List α) (args : σ) (nproc : Nat) (p q : String)
    (h : nproc = 1) :
    parallel_function_eval mt ω f xs args nproc p
      = parallel_function_eval mt ω' f xs args nproc q
  ∧ (parallel_function_eval mt ω f xs args nproc p).1
      = Except.ok (xs.map (fun x => f x args))
  ∧ (∀ n, Event.poolCreate n ∉ (parallel_function_eval mt ω f xs args nproc p).2)
  ∧ (∀ n, Event.jaxVmapBatch n ∉ (parallel_function_eval mt ω f xs args nproc p).2) := by
  subst h
  rw [show parallel_function_eval mt ω f xs args 1 p
        = parallelization_wrapper mt ω f xs args 1 p from rfl,
      show parallel_function_eval mt ω' f xs args 1 q
        = parallelization_wrapper mt ω' f xs args 1 q from rfl,
      parallelization_wrapper_nproc_one, parallelization_wrapper_nproc_one]
  refine ⟨rfl, rfl, ?_, ?_⟩ <;>
    intro n <;> by_cases hmt : mt < 1 <;> simp [hmt]

/-- C3 witness at a concrete instance. -/
theorem C3_workerCount_one_sequential_witness :
    (1 : Nat) = 1 ∧
    (parallel_function_eval 8 ⟨some "a", none, none⟩
        (fun (x : Int) (_ : Unit) => x + 1) [1, 2] () 1 "foo"
      = parallel_function_eval 8 ⟨none, none, some "b"⟩
        (fun (x : Int) (_ : Unit) => x + 1) [1, 2] () 1 "jax"
  ∧ (parallel_function_eval 8 ⟨some "a", none, none⟩
        (fun (x : Int) (_ : Unit) => x + 1) [1, 2] () 1 "foo").1
      = Except.ok ([1, 2].map (fun x : Int => x + 1))
  ∧ (∀ n, Event.poolCreate n ∉ (parallel_function_eval 8 ⟨some "a", none, none⟩
        (fun (x : Int) (_ : Unit) => x + 1) [1, 2] () 1 "foo").2)
  ∧ (∀ n, Event.jaxVmapBatch n ∉ (parallel_function_eval 8 ⟨some "a", none, none⟩
        (fun (x : Int) (_ : Unit) => x + 1) [1, 2] () 1 "foo").2)) :=
  ⟨rfl,
   C3_workerCount_one_sequential 8 ⟨some "a", none, none⟩ ⟨none, none, some "b"⟩
     (fun (x : Int) (_ : Unit) => x + 1) [1, 2] () 1 "foo" "jax" rfl⟩

/-- C4: `parallel_reduce` is exactly the sum of the single sequence that
`parallel_function_eval` returns for the same arguments (one evaluation,
one summation); in particular reducing squaring over [1, 2, 3, 4] with
worker count one yields 30. -/
theorem C4_reduce_is_sum_of_evaluate {α σ β : Type} [AddMonoid β] (mt : Nat)
    (ω : BackendOracle) (f : α → σ → β) (xs : List α) (args : σ)
    (nproc : Nat) (p : String) :
    parallel_reduce mt ω f xs args nproc p
      = Except.map np_sum (parallel_function_eval mt ω f xs args nproc p).1
  ∧ parallel_reduce 8 ⟨none, none, none⟩
      (fun (x : Int) (_ : Unit) => x * x) [1, 2, 3, 4] () 1 "jax" = Except.ok 30 :=
  ⟨rfl, by rfl⟩

end Speedify

namespace Speedify

/-- C5 counterexample: with the jax import succeeding and the pathos import
failing, the probe records "concurrent.futures", not the first backend in
priority order whose import succeeded ("jax"). -/
theorem C5_counterexample_probe_overrides_jax :
    DEFAULTPARALLELIZER true false = "concurrent.futures"
  ∧ firstSuccessfulBackend true false = "jax"
  ∧ DEFAULTPARALLELIZER true false ≠ firstSuccessfulBackend true false :=
  ⟨rfl, rfl, by decide⟩

/-- C5 amended: the probe starts from the vectorizing JIT backend
identifier and downgrades on each failed import in sequence: a failed
jax import moves the default to the process-pool library, and a failed
pathos import moves it to built-in multiprocessing regardless of whether
the jax import succeeded; when only built-in multiprocessing is available it is
the recorded final fallback, and the probe yields a value for every
availability combination (no error propagates). -/
theorem C5_amended_probe_cascade (j p : Bool) :
    DEFAULTPARALLELIZER j p
      = (if p then (if j then "jax" else "pathos.pools") else "concurrent.futures")
  ∧ DEFAULTPARALLELIZER false false = "concurrent.futures" := by
  cases j <;> cases p <;> exact ⟨rfl, rfl⟩

/-- C6 counterexample: with a detected thread count of 4 and a requested
worker count of 100, the dispatcher warns but sizes the pool to 100, not
to the clamped value 4. -/
theorem C6_counterexample_no_clamping :
    ((parallel_function_eval 4 ⟨none, none, none⟩
        (fun (x : Int) (_ : Unit) => x) [1, 2] () 100 "concurrent.futures").2
      = [Event.warnExceedsMaxThreads, Event.poolCreate 100])
  ∧ 4 < 100
  ∧ [Event.warnExceedsMaxThreads, Event.poolCreate 100]
      ≠ [Event.warnExceedsMaxThreads, Event.poolCreate 4] :=
  ⟨rfl, by decide, by decide⟩

/-- C6 amended: a requested worker count above the detected thread count
only triggers a warning; the per-call worker pool is sized to the
requested worker count unchanged, with no clamping to the interval
[1, maxThreads]. -/
theorem C6_amended_pool_sized_as_requested {α σ β : Type} (mt : Nat) (ω : BackendOracle)
    (f : α → σ → β) (xs : List α) (args : σ) (nproc : Nat) (h : nproc ≠ 1) :
    ((parallel_function_eval mt ω f xs args nproc "concurrent.futures").2
        = (if mt < nproc then [Event.warnExceedsMaxThreads] else [])
            ++ [Event.poolCreate nproc])
  ∧ ((parallel_function_eval mt ω f xs args nproc "pathos.pools").2
        = (if mt < nproc then [Event.warnExceedsMaxThreads] else [])
            ++ [Event.poolCreate nproc]) := by
  constructor <;> simp [parallel_function_eval, parallelization_wrapper, h]

/-- C6 amended witness at a concrete instance. -/
theorem C6_amended_pool_sized_as_requested_witness :
    (100 : Nat) ≠ 1 ∧
    ((parallel_function_eval 4 ⟨none, none, none⟩ (fun (x : Int) (_ : Unit) => x)
        [1, 2] () 100 "concurrent.futures").2
      = (if 4 < 100 then [Event.warnExceedsMaxThreads] else [])
          ++ [Event.poolCreate 100]) :=
  ⟨by decide,
   (C6_amended_pool_sized_as_requested 4 ⟨none, none, none⟩
      (fun (x : Int) (_ : Unit) => x) [1, 2] () 100 (by decide)).1⟩

/-- C7: a dispatch with worker count above one and a backend identifier
outside the recognized set {jax, concurrent.futures, pathos.pools} raises
the fatal unknown-parallelizer error, which carries the unrecognized
identifier and propagates to the caller with no further fallback. -/
theorem C7_unknown_parallelizer_fatal {α σ β : Type} (mt : Nat) (ω : BackendOracle)
    (f : α → σ → β) (xs : List α) (args : σ) (nproc : Nat) (p : String)
    (hn : nproc ≠ 1)
    (hp : p ≠ "jax" ∧ p ≠ "concurrent.futures" ∧ p ≠ "pathos.pools") :
    (parallel_function_eval mt ω f xs args nproc p).1
      = Except.error (PyError.unknownParallelizer p) := by
  obtain ⟨h1, h2, h3⟩ := hp
  simp [parallel_function_eval, parallelization_wrapper, hn, h1, h2, h3]

/-- C7 witness at a concrete instance. -/
theorem C7_unknown_parallelizer_fatal_witness :
    ((2 : Nat) ≠ 1
      ∧ ("numpy" ≠ "jax" ∧ "numpy" ≠ "concurrent.futures" ∧ "numpy" ≠ "pathos.pools"))
  ∧ (parallel_function_eval 8 ⟨none, none, none⟩ (fun (x : Int) (_ : Unit) => x)
        [1] () 2 "numpy").1 = Except.error (PyError.unknownParallelizer "numpy") :=
  ⟨⟨by decide, by decide, by decide, by decide⟩,
   C7_unknown_parallelizer_fatal 8 ⟨none, none, none⟩ (fun (x : Int) (_ : Unit) => x)
     [1] () 2 "numpy" (by decide) ⟨by decide, by decide, by decide⟩⟩

/-- C8: when `compile` returns the vectorized-backend wrapper (COMPILE set
and default parallelizer "jax") and the compiled invocation raises, the
wrapper logs a warning and re-invokes the original function on the
original unconverted arguments, returning its result; when the compiled
invocation succeeds, the wrapper also returns the original function's
value on those arguments, with no warning. -/
theorem C8_compile_wrapper_falls_back {σ β : Type} (func : σ → β) (args : σ)
    (msg : String) :
    compileApply true "jax" (some msg) func args
      = (func args, [Event.warnJaxExecFailed msg])
  ∧ compileApply true "jax" none func args = (func args, []) :=
  ⟨rfl, rfl⟩

/-- C9: with worker count one, the backend identifier is never validated:
for every string, including unrecognized ones, the dispatch returns the
sequential results and never the unknown-parallelizer fatal error. -/
theorem C9_nproc_one_skips_backend_validation {α σ β : Type} (mt : Nat)
    (ω : BackendOracle) (f : α → σ → β) (xs : List α) (args : σ) (s : String) :
    (parallel_function_eval mt ω f xs args 1 s).1
      = Except.ok (xs.map (fun x => f x args))
  ∧ ∀ q, (parallel_function_eval mt ω f xs args 1 s).1
      ≠ Except.error (PyError.unknownParallelizer q) := by
  rw [show parallel_function_eval mt ω f xs args 1 s
        = parallelization_wrapper mt ω f xs args 1 s from rfl,
      parallelization_wrapper_nproc_one]
  exact ⟨rfl, fun q h => by simp at h⟩

end Speedify

namespace Polynomials

open Speedify (PyError)

/-- Helper: `Polynomial.call` unfolds to the index fold of the source loop. -/
theorem Polynomial.call_def (c : List ℚ) (x : ℚ) :
    Polynomial.call ⟨c⟩ x
      = (List.range c.length).foldl (fun res i => res + c.getD i 0 * x ^ i) 0 := rfl

/-- Helper: pulling the common denominator out of the accumulating loop:
summing the terms `c[i] * x^i / D` equals summing `c[i] * x^i` and dividing
once at the end (exact arithmetic over ℚ). -/
theorem rational_fold_div (c : List ℚ) (x D : ℚ) (l : List Nat) (a b : ℚ)
    (hab : a = b / D) :
    l.foldl (fun res i => res + c.getD i 0 * x ^ i / D) a
      = (l.foldl (fun res i => res + c.getD i 0 * x ^ i) b) / D := by
  induction l generalizing a b with
  | nil => simpa using hab
  | cons i t ih =>
    simp only [List.foldl_cons]
    exact ih _ _ (by rw [hab, div_add_div_same])

/-- Helper: when the denominator value is nonzero, the guarded monadic loop
of `Rational.call` never raises and computes the corresponding pure fold. -/
theorem rational_fold_ok (c : List ℚ) (x D : ℚ) (hD : D ≠ 0) (l : List Nat) (a : ℚ) :
    (l.foldlM (fun res i =>
        if D = 0 then Except.error PyError.zeroDivisionError
        else Except.ok (res + c.getD i 0 * x ^ i / D)) a : Except PyError ℚ)
      = Except.ok (l.foldl (fun res i => res + c.getD i 0 * x ^ i / D) a) := by
  induction l generalizing a with
  | nil => rfl
  | cons i t ih =>
    rw [List.foldlM_cons, if_neg hD, List.foldl_cons]
    show t.foldlM _ (a + c.getD i 0 * x ^ i / D) = _
    exact ih _

/-- C10: for all coefficient lists n and d and every x, if the denominator
polynomial is nonzero at x then `Rational.call ⟨n, d⟩ x` equals the
numerator polynomial value divided by the denominator polynomial value;
and if the denominator polynomial is zero at x and n is non-empty, the
call raises a division error. -/
theorem C10_rational_is_poly_quotient (n d : List ℚ) (x : ℚ) :
    (Polynomial.call ⟨d⟩ x ≠ 0 →
        Rational.call ⟨n, d⟩ x
          = Except.ok (Polynomial.call ⟨n⟩ x / Polynomial.call ⟨d⟩ x))
  ∧ (Polynomial.call ⟨d⟩ x = 0 → n ≠ [] →
        Rational.call ⟨n, d⟩ x = Except.error PyError.zeroDivisionError) := by
  constructor
  · intro hD
    have h1 : Rational.call ⟨n, d⟩ x
        = (List.range n.length).foldlM
            (fun res i =>
              if Polynomial.call ⟨d⟩ x = 0 then Except.error PyError.zeroDivisionError
              else Except.ok (res + n.getD i 0 * x ^ i / Polynomial.call ⟨d⟩ x)) 0 := rfl
    rw [h1, rational_fold_ok n x _ hD,
        rational_fold_div n x _ (List.range n.length) 0 0 (zero_div _).symm]
    rfl
  · intro hD hn
    cases n with
    | nil => exact absurd rfl hn
    | cons c rest =>
      have h1 : Rational.call ⟨c :: rest, d⟩ x
          = (List.range (c :: rest).length).foldlM
              (fun res i =>
                if Polynomial.call ⟨d⟩ x = 0 then Except.error PyError.zeroDivisionError
                else Except.ok (res + (c :: rest).getD i 0 * x ^ i / Polynomial.call ⟨d⟩ x))
              0 := rfl
      rw [h1, List.length_cons, List.range_succ_eq_map, List.foldlM_cons, if_pos hD]
      rfl

/-- C10 witness at concrete instances: a nonzero denominator and a zero
denominator with non-empty numerator. -/
theorem C10_rational_is_poly_quotient_witness :
    (Rational.call ⟨[1, 2], [2]⟩ 3
        = Except.ok (Polynomial.call ⟨[1, 2]⟩ 3 / Polynomial.call ⟨[2]⟩ 3))
  ∧ (Rational.call ⟨[1], [0]⟩ 5 = Except.error PyError.zeroDivisionError) :=
  ⟨(C10_rational_is_poly_quotient [1, 2] [2] 3).1
      (by simp [Polynomial.call_def, List.range_succ]),
   (C10_rational_is_poly_quotient [1] [0] 5).2
      (by simp [Polynomial.call_def, List.range_succ]) (by simp)⟩

end Polynomials
